import Mathlib

/-!
Verification of the LifeVault ingestion-and-retrieval pipeline.

Shallow embedding of the core components of the repository:
  - `backend/ai/vector_store.py`   (result formatting, upsert, dedup check, search)
  - `backend/ai/query_engine.py`   (query orchestration, intent-parse fallback)
  - `backend/main.py`              (`ingest_file` pipeline)
  - `backend/ingestion/doc_processor.py`      (`process_document`)
  - `backend/ingestion/metadata_extractor.py` (`_convert_gps_to_decimal`)

Python floats are modelled as exact rationals; Python's `round` builtin is
modelled as decimal round-half-to-even (`pyRound`).  External collaborators
(embedding models, OCR, EXIF reader, Gemini, the filesystem) are parameters
of the model; the ChromaDB collection itself is modelled from the spec as an
association list keyed by record id with insert-or-replace upsert.
-/

namespace LifeVault

/-- Round a rational to the nearest integer, halves to the even integer:
the model of Python's builtin `round(x)` semantics. -/
def roundHalfEven (x : ℚ) : ℤ :=
  let f := Int.floor x
  if x - f < 1/2 then f
  else if 1/2 < x - f then f + 1
  else if Even f then f else f + 1

/-- Model of Python's `round(x, n)` for `n` decimal places. -/
def pyRound (x : ℚ) (n : ℕ) : ℚ :=
  (roundHalfEven (x * 10 ^ n) : ℚ) / 10 ^ n

theorem roundHalfEven_nonneg {x : ℚ} (h : 0 ≤ x) : 0 ≤ roundHalfEven x := by
  unfold roundHalfEven
  have hf : (0 : ℤ) ≤ Int.floor x := Int.floor_nonneg.mpr h
  dsimp only
  split_ifs <;> omega

theorem roundHalfEven_le {x : ℚ} {B : ℤ} (h : x ≤ (B : ℚ)) : roundHalfEven x ≤ B := by
  unfold roundHalfEven
  have hf : Int.floor x ≤ B := by
    have := Int.floor_le_floor h
    simpa using this
  dsimp only
  split_ifs with h1 h2 h3
  · exact hf
  · -- here 1/2 < x - ⌊x⌋, so ⌊x⌋ < B
    have hx : (Int.floor x : ℚ) + 1/2 < x := by linarith
    have : (Int.floor x : ℚ) < (B : ℚ) := by linarith
    have : Int.floor x < B := by exact_mod_cast this
    omega
  · exact hf
  · -- here x - ⌊x⌋ = 1/2 exactly, so ⌊x⌋ < B
    have hx : x - (Int.floor x : ℚ) = 1/2 := le_antisymm (not_lt.mp h2) (not_lt.mp h1)
    have : (Int.floor x : ℚ) < (B : ℚ) := by linarith
    have : Int.floor x < B := by exact_mod_cast this
    omega

theorem pyRound_nonneg {x : ℚ} (n : ℕ) (h : 0 ≤ x) : 0 ≤ pyRound x n := by
  unfold pyRound
  have h1 : (0 : ℚ) ≤ (roundHalfEven (x * 10 ^ n) : ℚ) := by
    exact_mod_cast roundHalfEven_nonneg (by positivity)
  positivity

theorem pyRound_le_one {x : ℚ} (n : ℕ) (h : x ≤ 1) : pyRound x n ≤ 1 := by
  unfold pyRound
  have hb : x * 10 ^ n ≤ (((10:ℤ) ^ n : ℤ) : ℚ) := by
    push_cast
    have hpos : (0:ℚ) < 10 ^ n := by positivity
    nlinarith
  have h1 : (roundHalfEven (x * 10 ^ n) : ℤ) ≤ (10:ℤ) ^ n := roundHalfEven_le hb
  have h2 : ((roundHalfEven (x * 10 ^ n) : ℤ) : ℚ) ≤ ((10:ℚ) ^ n) := by exact_mod_cast h1
  have hpos : (0:ℚ) < 10 ^ n := by positivity
  rw [div_le_one hpos]
  exact h2

/-! Python string primitives, modelled over the character list of a Lean
string: `s[:n]` slicing, `len(s)` and `s.strip()`. -/

/-- Python slicing `s[:n]` (characters). -/
def pyTake (s : String) (n : ℕ) : String := ⟨s.data.take n⟩

/-- Python `len(s)` (characters). -/
def pyLen (s : String) : ℕ := s.data.length

/-- Python `s.strip()`: remove leading and trailing whitespace. -/
def pyStrip (s : String) : String :=
  ⟨((s.data.dropWhile Char.isWhitespace).reverse.dropWhile Char.isWhitespace).reverse⟩

/-! Metadata values: ChromaDB metadata values are Python scalars; before
sanitization a value may also be `None`.  `MVal.str ""` models the empty
string. -/

inductive MVal : Type
  | none : MVal
  | str (s : String) : MVal
  | int (n : ℤ) : MVal
  | float (q : ℚ) : MVal
  | bool (b : Bool) : MVal
  deriving DecidableEq, Repr

/-- Metadata mapping, as a key/value association list. -/
abbrev Metadata : Type := List (String × MVal)

/-- `vector_store.py` line 68/87:
`clean_meta = \x7bk: v for k, v in metadata.items() if v is not None and v != ""\x7d`. -/
def clean_meta (m : Metadata) : Metadata :=
  m.filter (fun kv => kv.2 ≠ MVal.none ∧ kv.2 ≠ MVal.str "")

/-! Query-result formatting: `VectorStore._format_results`. -/

structure SearchResult : Type where
  id : String
  score : ℚ
  match_percentage : ℚ
  metadata : Metadata
  text_preview : String
  deriving DecidableEq

/-- One entry of `_format_results` (`vector_store.py` lines 189-198):
`score = max(0.0, 1.0 - distances[i])`, the stored score is `round(score, 4)`
and `match_percentage` is `round(score * 100, 1)` computed from the
unrounded score. -/
def format_one (id : String) (meta : Metadata) (doc : String) (dist : ℚ) : SearchResult :=
  let score := max 0 (1 - dist)
  { id := id
    score := pyRound score 4
    match_percentage := pyRound (score * 100) 1
    metadata := meta
    text_preview := pyTake doc 300 }

/-- Descending-by-score relation used by the two `sort(key=..., reverse=True)`
calls in the source; Python's sort is stable, as is insertion sort. -/
def scoreGe (a b : SearchResult) : Prop := b.score ≤ a.score

instance : DecidableRel scoreGe := fun a b => by
  unfold scoreGe
  infer_instance

instance : IsTotal SearchResult scoreGe := ⟨fun a b => le_total b.score a.score⟩

instance : IsTrans SearchResult scoreGe := ⟨fun _ _ _ h1 h2 => le_trans h2 h1⟩

/-- `VectorStore._format_results` (`vector_store.py` lines 177-202), taking the
parallel id/metadata/document/distance entries already zipped. -/
def format_results (raw : List (String × Metadata × String × ℚ)) : List SearchResult :=
  let formatted := raw.map (fun x => format_one x.1 x.2.1 x.2.2.1 x.2.2.2)
  List.insertionSort scoreGe formatted

/-! The vector store: `backend/ai/vector_store.py`.  A record holds the
embedding, the (sanitized) metadata and the stored document text; a
collection is an id-keyed association list. -/

structure Rec : Type where
  embedding : List ℚ
  metadata : Metadata
  document : String
  deriving DecidableEq

/-- A ChromaDB collection.  Modelled from the spec: a mapping from id to
Record (at most one Record per id), supporting insert-or-replace by id,
point lookup, similarity query and enumeration (chromadb itself is an
external library). -/
abbrev Coll : Type := List (String × Rec)

/-- Modelled from the spec: collection `count()`. -/
def Coll.count (c : Coll) : ℕ := c.length

/-- Modelled from the spec: point lookup by id (`collection.get(ids=[...])`). -/
def Coll.getById (c : Coll) (id : String) : Option Rec :=
  (c.find? (fun kv => kv.1 == id)).map (fun kv => kv.2)

/-- Modelled from the spec: `collection.upsert` inserts or fully replaces
the record stored under `id`. -/
def Coll.upsertRec : Coll → String → Rec → Coll
  | [], id, r => [(id, r)]
  | kv :: rest, id, r =>
      if kv.1 == id then (id, r) :: rest else kv :: Coll.upsertRec rest id r

/-- Python-value rendering used by the f-string placeholders
`f"Image: ..."` / `f"Document: ..."`. -/
def MVal.pyStr : MVal → String
  | MVal.none => "None"
  | MVal.str s => s
  | MVal.int n => toString n
  | MVal.float q => toString q
  | MVal.bool b => if b then "True" else "False"

/-- `metadata.get('file_name', '')` rendered as a string. -/
def metaGetStr (m : Metadata) (key : String) : String :=
  match m.find? (fun kv => kv.1 == key) with
  | Option.none => ""
  | Option.some kv => kv.2.pyStr

/-- `_file_id` (`vector_store.py` lines 27-29).  Modelled from the spec: the
MD5 hex digest (an external library call) is a deterministic, in-practice
injective function of the path string; the exact digest algorithm is not a
correctness requirement, only stability. -/
def file_id (p : String) : String := "md5-" ++ p

/-- The vector store's two collections (`lifevault_images`,
`lifevault_documents`). -/
structure Store : Type where
  images : Coll
  docs : Coll
  deriving DecidableEq

/-- `VectorStore.upsert_image` (`vector_store.py` lines 58-76). -/
def upsert_image (st : Store) (file_path : String) (embedding : List ℚ)
    (metadata : Metadata) (text_content : String) : Store :=
  let doc_id := file_id file_path
  let cm := clean_meta metadata
  let doc := if text_content = "" then "Image: " ++ metaGetStr metadata "file_name"
             else text_content
  { st with images := Coll.upsertRec st.images doc_id ⟨embedding, cm, doc⟩ }

/-- `VectorStore.upsert_document` (`vector_store.py` lines 78-95); the stored
document text is `text_content[:5000]` with the same falsy-fallback. -/
def upsert_document (st : Store) (file_path : String) (embedding : List ℚ)
    (metadata : Metadata) (text_content : String) : Store :=
  let doc_id := file_id file_path
  let cm := clean_meta metadata
  let t := pyTake text_content 5000
  let doc := if t = "" then "Document: " ++ metaGetStr metadata "file_name" else t
  { st with docs := Coll.upsertRec st.docs doc_id ⟨embedding, cm, doc⟩ }

/-- `VectorStore.is_file_indexed` (`vector_store.py` lines 152-167): present
in either collection. -/
def is_file_indexed (st : Store) (file_path : String) : Bool :=
  let doc_id := file_id file_path
  (Coll.getById st.images doc_id).isSome || (Coll.getById st.docs doc_id).isSome

/-- Cosine distance between a query vector and a stored vector.  Modelled
from the spec: both spaces use the cosine metric on L2-normalized vectors,
`distance = 1 - dot`. -/
def cosDist (q v : List ℚ) : ℚ :=
  1 - ((q.zip v).map (fun p => p.1 * p.2)).sum

/-- Modelled from the spec: `collection.query(query_embeddings, n_results)`
returns the `n_results` nearest records by ascending cosine distance (fewer
when the collection is smaller), as parallel id/metadata/document/distance
entries. -/
def Coll.query (c : Coll) (qv : List ℚ) (n : ℕ) : List (String × Metadata × String × ℚ) :=
  let entries := c.map (fun kv => (kv.1, kv.2.metadata, kv.2.document, cosDist qv kv.2.embedding))
  let sorted := entries.mergeSort (fun a b => decide (a.2.2.2 ≤ b.2.2.2))
  sorted.take n

/-- The `n_results=min(top_k, collection.count() or 1)` argument of
`vector_store.py` lines 105/118: Python's `or` replaces a zero count by 1. -/
def n_results_arg (top_k cnt : ℕ) : ℕ :=
  min top_k (if cnt = 0 then 1 else cnt)

/-- `VectorStore.search_images` (`vector_store.py` lines 97-108). -/
def search_images (st : Store) (query_embedding : List ℚ) (top_k : ℕ) : List SearchResult :=
  format_results (Coll.query st.images query_embedding (n_results_arg top_k (Coll.count st.images)))

/-- `VectorStore.search_documents` (`vector_store.py` lines 110-121). -/
def search_documents (st : Store) (query_embedding : List ℚ) (top_k : ℕ) : List SearchResult :=
  format_results (Coll.query st.docs query_embedding (n_results_arg top_k (Coll.count st.docs)))

/-! Ingestion pipeline: `backend/main.py` `ingest_file`, with
`process_image` / `process_document` from `backend/ingestion/`.  External
collaborators (filesystem, CLIP, OCR, the tagger, the per-format text
extractors, the sentence model) are fields of `IngestEnv`; an `Option`
result `none` models the collaborator raising an exception. -/

def IMAGE_EXTENSIONS : List String := [".jpg", ".jpeg", ".png", ".webp", ".bmp"]

def DOCUMENT_EXTENSIONS : List String := [".pdf", ".txt", ".docx", ".md"]

def MAX_TEXT_LENGTH : ℕ := 3000

structure IngestEnv : Type where
  resolve : String → String
  extOf : String → String
  extractMetadata : String → Metadata
  extractExif : String → Metadata
  clipImageEmbed : String → Option (List ℚ)
  ocr : String → Option String
  autoTag : String → List (String × ℚ)
  extractText : String → String
  encode : String → Option (List ℚ)

structure ProcResult : Type where
  embedding : List ℚ
  text_content : String
  deriving DecidableEq

/-- `process_image` (`image_processor.py` lines 18-71): a failure anywhere in
the CLIP block yields the empty default result; OCR is best-effort and only
fills `text_content` when it succeeds with non-empty text. -/
def process_image (env : IngestEnv) (file_path : String) : ProcResult :=
  match env.clipImageEmbed file_path with
  | Option.none => ⟨[], ""⟩
  | Option.some emb => ⟨emb, (env.ocr file_path).getD ""⟩

/-- `process_document` (`doc_processor.py` lines 20-70): dispatch on the
extension, reject when fewer than 10 characters survive stripping, truncate
to `MAX_TEXT_LENGTH` before embedding; an `encode` failure is caught leaving
the embedding empty. -/
def process_document (env : IngestEnv) (file_path : String) : ProcResult :=
  let ext := env.extOf file_path
  if ext = ".pdf" ∨ ext = ".docx" ∨ ext = ".txt" ∨ ext = ".md" then
    let text := env.extractText file_path
    if text = "" ∨ pyLen (pyStrip text) < 10 then ⟨[], ""⟩
    else
      let tc := pyTake text MAX_TEXT_LENGTH
      match env.encode tc with
      | Option.none => ⟨[], tc⟩
      | Option.some emb => ⟨emb, tc⟩
  else ⟨[], ""⟩

/-- Python `dict.update`: keys of `upd` override keys of `base`. -/
def meta_update (base upd : Metadata) : Metadata :=
  base.filter (fun kv => ¬ upd.any (fun kv2 => kv2.1 == kv.1)) ++ upd

/-- `ingest_file` (`main.py` lines 57-134).  The second component counts the
upsert calls the invocation performed. -/
def ingest_file (env : IngestEnv) (st : Store) (file_path0 : String) : Store × ℕ :=
  let file_path := env.resolve file_path0
  let ext := env.extOf file_path
  if is_file_indexed st file_path then (st, 0)
  else
    let metadata := env.extractMetadata file_path
    if ext ∈ IMAGE_EXTENSIONS then
      let metadata := meta_update metadata (env.extractExif file_path)
      let result := process_image env file_path
      if result.embedding = [] then (st, 0)
      else
        let tags := env.autoTag file_path
        let metadata :=
          match tags with
          | [] => metadata
          | t :: _ =>
              meta_update metadata
                [("auto_tags", MVal.str (String.intercalate ", " (tags.map Prod.fst))),
                 ("top_tag", MVal.str t.1),
                 ("top_tag_score", MVal.float t.2)]
        (upsert_image st file_path result.embedding metadata result.text_content, 1)
    else if ext ∈ DOCUMENT_EXTENSIONS then
      let result := process_document env file_path
      if result.embedding = [] then (st, 0)
      else (upsert_document st file_path result.embedding metadata result.text_content, 1)
    else (st, 0)

/-! Query orchestration: `backend/ai/query_engine.py`.  The Gemini model and
the two text embedders are external; `Option.none` models an exception
raised by the collaborator (caught by the corresponding `try` block). -/

/-- Structured intent; only the `file_type` field is consulted by `search`.
`fileType = Option.none` models a dict without a `file_type` entry (in
particular the empty dict of the fallback path). -/
structure Intent : Type where
  fileType : Option String
  deriving DecidableEq

def emptyIntent : Intent := ⟨Option.none⟩

structure QueryEnv : Type where
  gemini : Option (String → Option (Intent × String))
  clipTextEmbed : String → Option (List ℚ)
  sentEmbed : String → Option (List ℚ)

/-- `QueryEngine._parse_intent` (`query_engine.py` lines 114-149): any
exception in the Gemini call / JSON parse is caught and the pair
`(empty intent, original query)` is returned. -/
def parse_intent (parser : String → Option (Intent × String)) (query : String) :
    Intent × String :=
  match parser query with
  | Option.none => (emptyIntent, query)
  | Option.some p => p

structure SearchOutput : Type where
  query : String
  refined_query : String
  intent : Intent
  results : List SearchResult
  total_results : ℕ
  deriving DecidableEq

/-- `QueryEngine.search` (`query_engine.py` lines 43-112). -/
def search (env : QueryEnv) (st : Store) (query : String) (top_k : ℕ)
    (search_type0 : String) : SearchOutput :=
  let pr :=
    match env.gemini with
    | Option.none => (emptyIntent, query)
    | Option.some parser =>
        let p := parse_intent parser query
        (p.1, if p.2 = "" then query else p.2)
  let intent := pr.1
  let refined_query := pr.2
  let search_type :=
    if intent.fileType = Option.some "image" then "images"
    else if intent.fileType = Option.some "document" then "documents"
    else search_type0
  let imgResults :=
    if search_type = "all" ∨ search_type = "images" then
      match env.clipTextEmbed refined_query with
      | Option.none => []
      | Option.some v => search_images st v top_k
    else []
  let docResults :=
    if search_type = "all" ∨ search_type = "documents" then
      match env.sentEmbed refined_query with
      | Option.none => []
      | Option.some v => search_documents st v top_k
    else []
  let results := (List.insertionSort scoreGe (imgResults ++ docResults)).take top_k
  ⟨query, refined_query, intent, results, results.length⟩

/-! GPS conversion: `metadata_extractor.py` `_convert_gps_to_decimal`.  The
three EXIF rationals are given as numerator/denominator pairs; a zero
denominator makes the float division raise, which the function catches by
returning `None`. -/

/-- `_convert_gps_to_decimal` (`metadata_extractor.py` lines 89-103). -/
def convert_gps_to_decimal (dn dd mn md sn sd : ℤ) (gps_ref : Option String) :
    Option ℚ :=
  if dd = 0 ∨ md = 0 ∨ sd = 0 then Option.none
  else
    let d : ℚ := (dn : ℚ) / (dd : ℚ)
    let m : ℚ := (mn : ℚ) / (md : ℚ)
    let s : ℚ := (sn : ℚ) / (sd : ℚ)
    let decimal := d + m / 60 + s / 3600
    let signed :=
      match gps_ref with
      | Option.none => decimal
      | Option.some r => if r = "S" ∨ r = "W" then -decimal else decimal
    Option.some (pyRound signed 6)

/-! Concrete environments and stores used to instantiate the theorems. -/

def txtEnv : IngestEnv where
  resolve := fun p => p
  extOf := fun _ => ".txt"
  extractMetadata := fun _ => [("file_name", MVal.str "a.txt")]
  extractExif := fun _ => []
  clipImageEmbed := fun _ => Option.none
  ocr := fun _ => Option.none
  autoTag := fun _ => []
  extractText := fun _ => "hello world, plenty of text"
  encode := fun _ => Option.some [1]

def shortTxtEnv : IngestEnv := { txtEnv with extractText := fun _ => "tiny" }

def imgEnv : IngestEnv :=
  { txtEnv with extOf := fun _ => ".jpg", clipImageEmbed := fun _ => Option.some [1, 0] }

def imgFailEnv : IngestEnv :=
  { imgEnv with clipImageEmbed := fun _ => Option.none }

def emptyStore : Store := ⟨[], []⟩

def oneTxtStore : Store := ⟨[], [(file_id "a.txt", ⟨[1], [], "hello"⟩)]⟩

def qEnvPlain : QueryEnv :=
  ⟨Option.none, fun _ => Option.some [1], fun _ => Option.some [1]⟩

def qEnvFailParse : QueryEnv :=
  ⟨Option.some (fun _ => Option.none), fun _ => Option.some [1], fun _ => Option.some [1]⟩

def qEnvClipFail : QueryEnv :=
  ⟨Option.none, fun _ => Option.none, fun _ => Option.some [1]⟩

def qEnvSentFail : QueryEnv :=
  ⟨Option.none, fun _ => Option.some [1], fun _ => Option.none⟩

def qEnvBothFail : QueryEnv :=
  ⟨Option.none, fun _ => Option.none, fun _ => Option.none⟩

/-! Helper lemmas. -/

theorem getById_upsertRec (c : Coll) (id : String) (r : Rec) :
    Coll.getById (Coll.upsertRec c id r) id = Option.some r := by
  induction c with
  | nil => simp [Coll.upsertRec, Coll.getById]
  | cons kv rest ih =>
      by_cases h : kv.1 == id
      · simp [Coll.upsertRec, h, Coll.getById, List.find?]
      · simpa [Coll.upsertRec, h, Coll.getById, List.find?] using ih

theorem not_image_of_document {ext : String} (h : ext ∈ DOCUMENT_EXTENSIONS) :
    ext ∉ IMAGE_EXTENSIONS := by
  fin_cases h <;> decide

theorem doc_ext_dispatch {ext : String} (h : ext ∈ DOCUMENT_EXTENSIONS) :
    ext = ".pdf" ∨ ext = ".docx" ∨ ext = ".txt" ∨ ext = ".md" := by
  fin_cases h <;> simp

/-- Claim C1, counterexample.  At cosine distance `d = 0.96349` the result's
`score` field is `round(max(0, 1-d), 4) = 0.0365`, not `max(0, 1-d) =
0.03651`; and its `match_percentage` field is `round(0.03651*100, 1) = 3.7`,
which differs from `round(score*100, 1) = round(3.65, 1) = 3.6` computed
from the returned `score` field. -/
theorem score_exact_formula_cex :
    ¬ ((format_one "a" [] "" (96349/100000 : ℚ)).score
         = max 0 (1 - (96349/100000 : ℚ))) ∧
    ¬ ((format_one "a" [] "" (96349/100000 : ℚ)).match_percentage
         = pyRound ((format_one "a" [] "" (96349/100000 : ℚ)).score * 100) 1) := by
  have hs : (format_one "a" [] "" (96349/100000 : ℚ)).score = 365/10000 := by
    show pyRound (max 0 (1 - (96349/100000 : ℚ))) 4 = 365/10000
    norm_num [pyRound, roundHalfEven, Int.even_iff]
  have hm : (format_one "a" [] "" (96349/100000 : ℚ)).match_percentage = 37/10 := by
    show pyRound (max 0 (1 - (96349/100000 : ℚ)) * 100) 1 = 37/10
    norm_num [pyRound, roundHalfEven, Int.even_iff]
  constructor
  · rw [hs]
    norm_num
  · rw [hm, hs]
    norm_num [pyRound, roundHalfEven, Int.even_iff]

/-- Claim C1, amended.  For a non-negative cosine distance `d`, a formatted result
carries `score = round(max(0, 1-d), 4)`, which satisfies `0 ≤ score ≤ 1`,
and `match_percentage = round(max(0, 1-d) * 100, 1)` computed from the
unrounded similarity; and every result returned by `_format_results` is the
formatting of one of the raw query entries. -/
theorem score_and_match_percentage_amended (id : String) (meta : Metadata)
    (doc : String) (d : ℚ) (hd : 0 ≤ d)
    (raw : List (String × Metadata × String × ℚ)) (r : SearchResult)
    (hr : r ∈ format_results raw) :
    (format_one id meta doc d).score = pyRound (max 0 (1 - d)) 4 ∧
    0 ≤ (format_one id meta doc d).score ∧
    (format_one id meta doc d).score ≤ 1 ∧
    (format_one id meta doc d).match_percentage = pyRound (max 0 (1 - d) * 100) 1 ∧
    ∃ x ∈ raw, r = format_one x.1 x.2.1 x.2.2.1 x.2.2.2 := by
  refine ⟨rfl, ?_, ?_, rfl, ?_⟩
  · exact pyRound_nonneg 4 (le_max_left _ _)
  · exact pyRound_le_one 4 (max_le (by norm_num) (by linarith))
  · unfold format_results at hr
    have hperm :=
      List.perm_insertionSort scoreGe
        (raw.map (fun x => format_one x.1 x.2.1 x.2.2.1 x.2.2.2))
    obtain ⟨x, hx, hfx⟩ := List.mem_map.mp (hperm.mem_iff.mp hr)
    exact ⟨x, hx, hfx.symm⟩

/-- Claim C1 witness: the amended theorem instantiated at `d = 1/2` and a
one-entry raw result list. -/
theorem score_and_match_percentage_amended_witness :
    (format_one "a" [] "" (1/2 : ℚ)).score = pyRound (max 0 (1 - (1/2 : ℚ))) 4 ∧
    0 ≤ (format_one "a" [] "" (1/2 : ℚ)).score ∧
    (format_one "a" [] "" (1/2 : ℚ)).score ≤ 1 ∧
    (format_one "a" [] "" (1/2 : ℚ)).match_percentage
      = pyRound (max 0 (1 - (1/2 : ℚ)) * 100) 1 ∧
    ∃ x ∈ [("a", ([] : Metadata), "", (1/2 : ℚ))],
      format_one "a" [] "" (1/2 : ℚ) = format_one x.1 x.2.1 x.2.2.1 x.2.2.2 :=
  score_and_match_percentage_amended "a" [] "" (1/2) (by norm_num)
    [("a", ([] : Metadata), "", (1/2 : ℚ))] (format_one "a" [] "" (1/2 : ℚ))
    (List.Mem.head _)

/-- Claim C2: if the record for a path is present in either collection (i.e. a
previous `ingest` succeeded), a second `ingest` of the same path is a no-op:
the store is unchanged, neither collection's count increases, and the record
stored under the path's id is unchanged. -/
theorem ingest_dedup_noop (env : IngestEnv) (st : Store) (p : String) (r : Rec)
    (h : Coll.getById st.images (file_id (env.resolve p)) = Option.some r ∨
         Coll.getById st.docs (file_id (env.resolve p)) = Option.some r) :
    ingest_file env st p = (st, 0) ∧
    Coll.count (ingest_file env st p).1.images = Coll.count st.images ∧
    Coll.count (ingest_file env st p).1.docs = Coll.count st.docs ∧
    Coll.getById (ingest_file env st p).1.images (file_id (env.resolve p)) =
      Coll.getById st.images (file_id (env.resolve p)) ∧
    Coll.getById (ingest_file env st p).1.docs (file_id (env.resolve p)) =
      Coll.getById st.docs (file_id (env.resolve p)) := by
  have hidx : is_file_indexed st (env.resolve p) = true := by
    rcases h with h | h <;> simp [is_file_indexed, h]
  have hmain : ingest_file env st p = (st, 0) := by
    simp [ingest_file, hidx]
  refine ⟨hmain, ?_, ?_, ?_, ?_⟩ <;> rw [hmain]

/-- Claim C2 witness: the dedup theorem instantiated on a store that already holds
the record for `"a.txt"` in the document collection. -/
theorem ingest_dedup_noop_witness :
    ingest_file txtEnv oneTxtStore "a.txt" = (oneTxtStore, 0) ∧
    Coll.count (ingest_file txtEnv oneTxtStore "a.txt").1.images =
      Coll.count oneTxtStore.images ∧
    Coll.count (ingest_file txtEnv oneTxtStore "a.txt").1.docs =
      Coll.count oneTxtStore.docs ∧
    Coll.getById (ingest_file txtEnv oneTxtStore "a.txt").1.images
        (file_id (txtEnv.resolve "a.txt")) =
      Coll.getById oneTxtStore.images (file_id (txtEnv.resolve "a.txt")) ∧
    Coll.getById (ingest_file txtEnv oneTxtStore "a.txt").1.docs
        (file_id (txtEnv.resolve "a.txt")) =
      Coll.getById oneTxtStore.docs (file_id (txtEnv.resolve "a.txt")) :=
  ingest_dedup_noop txtEnv oneTxtStore "a.txt" ⟨[1], [], "hello"⟩ (Or.inr rfl)

/-- Claim C3: for every query, scope and `k ≥ 1`, `search` returns at most `k`
results, sorted non-increasing by their `score` field. -/
theorem search_topk_sorted (env : QueryEnv) (st : Store) (q : String) (k : ℕ)
    (ty : String) (hk : 1 ≤ k) :
    (search env st q k ty).results.length ≤ k ∧
    List.Sorted scoreGe (search env st q k ty).results := by
  obtain ⟨L, hL⟩ :
      ∃ L, (search env st q k ty).results = (List.insertionSort scoreGe L).take k :=
    ⟨_, rfl⟩
  rw [hL]
  constructor
  · simp [List.length_take]
  · exact List.Pairwise.sublist (List.take_sublist k _)
      (List.sorted_insertionSort scoreGe L)

/-- Claim C3 witness: the top-K theorem instantiated at `k = 3` on the empty
store. -/
theorem search_topk_sorted_witness :
    (search qEnvPlain emptyStore "cats" 3 "all").results.length ≤ 3 ∧
    List.Sorted scoreGe (search qEnvPlain emptyStore "cats" 3 "all").results :=
  search_topk_sorted qEnvPlain emptyStore "cats" 3 "all" (by decide)

/-- Claim C4: when the Gemini call raises (any failure inside `_parse_intent`),
`search` produces exactly the output of a run in which intent parsing is
skipped entirely: the original query is embedded, the scope is unchanged and
nothing propagates to the caller (`search` is a total function). -/
theorem search_intent_fallback (env : QueryEnv) (st : Store) (q : String) (k : ℕ)
    (ty : String) (parser : String → Option (Intent × String))
    (hg : env.gemini = Option.some parser) (hfail : parser q = Option.none) :
    search env st q k ty = search { env with gemini := Option.none } st q k ty := by
  simp [search, parse_intent, hg, hfail, emptyIntent]

/-- Claim C4 witness: the fallback theorem instantiated with a parser that always
raises. -/
theorem search_intent_fallback_witness :
    search qEnvFailParse emptyStore "cats" 5 "all" =
      search { qEnvFailParse with gemini := Option.none } emptyStore "cats" 5 "all" :=
  search_intent_fallback qEnvFailParse emptyStore "cats" 5 "all"
    (fun _ => Option.none) rfl rfl

/-- Claim C5: the `n_results` argument is `min(k, count)` on a non-empty collection
and `1` on an empty one (Python's `count() or 1`), and searching either side
of an empty store returns zero results without failing. -/
theorem empty_collection_safety (qv : List ℚ) (k : ℕ) (hk : 1 ≤ k)
    (c : Coll) (hc : Coll.count c ≠ 0) (st : Store)
    (hsi : st.images = []) (hsd : st.docs = []) :
    n_results_arg k (Coll.count c) = min k (Coll.count c) ∧
    n_results_arg k 0 = 1 ∧
    search_images st qv k = [] ∧
    search_documents st qv k = [] := by
  refine ⟨?_, ?_, ?_, ?_⟩
  · simp [n_results_arg, hc]
  · simp [n_results_arg]
    omega
  · simp [search_images, hsi, Coll.query, Coll.count, format_results, n_results_arg]
  · simp [search_documents, hsd, Coll.query, Coll.count, format_results, n_results_arg]

/-- Claim C5 witness: the safety theorem instantiated at `k = 3`, a one-record
collection and the empty store. -/
theorem empty_collection_safety_witness :
    n_results_arg 3 (Coll.count [(file_id "a.txt", (⟨[1], [], "hello"⟩ : Rec))]) =
      min 3 (Coll.count [(file_id "a.txt", (⟨[1], [], "hello"⟩ : Rec))]) ∧
    n_results_arg 3 0 = 1 ∧
    search_images emptyStore [1] 3 = [] ∧
    search_documents emptyStore [1] 3 = [] :=
  empty_collection_safety [1] 3 (by decide)
    [(file_id "a.txt", (⟨[1], [], "hello"⟩ : Rec))] (by decide)
    emptyStore rfl rfl

/-- Claim C6: the metadata persisted by `upsert_image` / `upsert_document` is the
sanitized metadata: it contains no pair whose value is `None` or the empty
string, every other pair of the input survives unchanged, and the record
stored under the path's id carries exactly that sanitized metadata together
with the embedding. -/
theorem metadata_sanitization (st : Store) (path : String) (emb : List ℚ)
    (meta : Metadata) (text : String) (kv kv2 : String × MVal)
    (hkv : kv ∈ clean_meta meta) (hkv2 : kv2 ∈ meta)
    (h2a : kv2.2 ≠ MVal.none) (h2b : kv2.2 ≠ MVal.str "") :
    (kv.2 ≠ MVal.none ∧ kv.2 ≠ MVal.str "") ∧
    kv2 ∈ clean_meta meta ∧
    (∃ docI, Coll.getById (upsert_image st path emb meta text).images (file_id path) =
        Option.some ⟨emb, clean_meta meta, docI⟩) ∧
    (∃ docD, Coll.getById (upsert_document st path emb meta text).docs (file_id path) =
        Option.some ⟨emb, clean_meta meta, docD⟩) := by
  refine ⟨?_, ?_, ⟨_, getById_upsertRec _ _ _⟩, ⟨_, getById_upsertRec _ _ _⟩⟩
  · have := List.mem_filter.mp hkv
    simpa using this.2
  · exact List.mem_filter.mpr ⟨hkv2, by simp [h2a, h2b]⟩

/-- Claim C6 witness: the sanitization theorem instantiated on a metadata mapping
with one kept pair, one empty-string pair and one `None` pair. -/
theorem metadata_sanitization_witness :
    ((("a", MVal.int 3) : String × MVal).2 ≠ MVal.none ∧
     (("a", MVal.int 3) : String × MVal).2 ≠ MVal.str "") ∧
    (("a", MVal.int 3) : String × MVal) ∈
      clean_meta [("a", MVal.int 3), ("b", MVal.str ""), ("c", MVal.none)] ∧
    (∃ docI, Coll.getById
        (upsert_image emptyStore "p.jpg" [1]
          [("a", MVal.int 3), ("b", MVal.str ""), ("c", MVal.none)] "t").images
        (file_id "p.jpg") =
        Option.some ⟨[1],
          clean_meta [("a", MVal.int 3), ("b", MVal.str ""), ("c", MVal.none)], docI⟩) ∧
    (∃ docD, Coll.getById
        (upsert_document emptyStore "p.jpg" [1]
          [("a", MVal.int 3), ("b", MVal.str ""), ("c", MVal.none)] "t").docs
        (file_id "p.jpg") =
        Option.some ⟨[1],
          clean_meta [("a", MVal.int 3), ("b", MVal.str ""), ("c", MVal.none)], docD⟩) :=
  metadata_sanitization emptyStore "p.jpg" [1]
    [("a", MVal.int 3), ("b", MVal.str ""), ("c", MVal.none)] "t"
    ("a", MVal.int 3) ("a", MVal.int 3)
    (by decide) (by decide) (by decide) (by decide)

/-- Claim C7: with scope `"all"` (and no intent narrowing), a failing image-side
embedding/search leaves exactly the documents-only run's output, a failing
document side leaves exactly the images-only run's output, and when both
sides fail the caller receives an empty result list instead of an error. -/
theorem modality_failure_isolation (st : Store) (q : String) (k : ℕ)
    (envA envB envC : QueryEnv)
    (hgA : envA.gemini = Option.none) (hclipA : envA.clipTextEmbed q = Option.none)
    (hgB : envB.gemini = Option.none) (hsentB : envB.sentEmbed q = Option.none)
    (hgC : envC.gemini = Option.none) (hclipC : envC.clipTextEmbed q = Option.none)
    (hsentC : envC.sentEmbed q = Option.none) :
    search envA st q k "all" = search envA st q k "documents" ∧
    search envB st q k "all" = search envB st q k "images" ∧
    (search envC st q k "all").results = [] := by
  refine ⟨?_, ?_, ?_⟩
  · simp [search, hgA, hclipA, emptyIntent]
  · simp [search, hgB, hsentB, emptyIntent]
  · simp [search, hgC, hclipC, hsentC, emptyIntent]

/-- Claim C7 witness: the isolation theorem instantiated with environments whose
image side, document side, and both sides fail. -/
theorem modality_failure_isolation_witness :
    search qEnvClipFail emptyStore "q" 2 "all" =
      search qEnvClipFail emptyStore "q" 2 "documents" ∧
    search qEnvSentFail emptyStore "q" 2 "all" =
      search qEnvSentFail emptyStore "q" 2 "images" ∧
    (search qEnvBothFail emptyStore "q" 2 "all").results = [] :=
  modality_failure_isolation emptyStore "q" 2 qEnvClipFail qEnvSentFail qEnvBothFail
    rfl rfl rfl rfl rfl rfl rfl

/-- Claim C8: once ingestion reaches the embedding step (file not yet indexed,
supported extension), an erroring or empty embedding makes `ingest_file`
return with the store untouched and zero upsert calls, while a non-empty
embedding leads to exactly one upsert that commits metadata and vector
together — for the image branch (`envA` failing / `envB` succeeding) and the
document branch (`envC` failing / `envD` succeeding). -/
theorem embedding_failure_atomicity (st : Store) (p : String)
    (envA envB envC envD : IngestEnv)
    (hniA : is_file_indexed st (envA.resolve p) = false)
    (hextA : envA.extOf (envA.resolve p) ∈ IMAGE_EXTENSIONS)
    (hembA : (process_image envA (envA.resolve p)).embedding = [])
    (hniB : is_file_indexed st (envB.resolve p) = false)
    (hextB : envB.extOf (envB.resolve p) ∈ IMAGE_EXTENSIONS)
    (hembB : (process_image envB (envB.resolve p)).embedding ≠ [])
    (hniC : is_file_indexed st (envC.resolve p) = false)
    (hextC : envC.extOf (envC.resolve p) ∈ DOCUMENT_EXTENSIONS)
    (hembC : (process_document envC (envC.resolve p)).embedding = [])
    (hniD : is_file_indexed st (envD.resolve p) = false)
    (hextD : envD.extOf (envD.resolve p) ∈ DOCUMENT_EXTENSIONS)
    (hembD : (process_document envD (envD.resolve p)).embedding ≠ []) :
    ingest_file envA st p = (st, 0) ∧
    ((ingest_file envB st p).2 = 1 ∧
      ∃ meta, ingest_file envB st p =
        (upsert_image st (envB.resolve p) (process_image envB (envB.resolve p)).embedding
           meta (process_image envB (envB.resolve p)).text_content, 1)) ∧
    ingest_file envC st p = (st, 0) ∧
    ((ingest_file envD st p).2 = 1 ∧
      ∃ meta, ingest_file envD st p =
        (upsert_document st (envD.resolve p) (process_document envD (envD.resolve p)).embedding
           meta (process_document envD (envD.resolve p)).text_content, 1)) := by
  refine ⟨?_, ⟨?_, ?_⟩, ?_, ⟨?_, ?_⟩⟩
  · simp [ingest_file, hniA, hextA, hembA]
  · simp [ingest_file, hniB, hextB, hembB]
  · simp only [ingest_file, hniB, Bool.false_eq_true, if_false, if_pos hextB,
      if_neg hembB]
    exact ⟨_, rfl⟩
  · simp [ingest_file, hniC, not_image_of_document hextC, hextC, hembC]
  · simp [ingest_file, hniD, not_image_of_document hextD, hextD, hembD]
  · simp only [ingest_file, hniD, Bool.false_eq_true, if_false,
      if_neg (not_image_of_document hextD), if_pos hextD, if_neg hembD]
    exact ⟨_, rfl⟩

/-- Claim C8 witness: the atomicity theorem instantiated with a failing and a
succeeding image environment and a failing (short text) and succeeding
document environment on the empty store. -/
theorem embedding_failure_atomicity_witness :
    ingest_file imgFailEnv emptyStore "a" = (emptyStore, 0) ∧
    ((ingest_file imgEnv emptyStore "a").2 = 1 ∧
      ∃ meta, ingest_file imgEnv emptyStore "a" =
        (upsert_image emptyStore (imgEnv.resolve "a")
           (process_image imgEnv (imgEnv.resolve "a")).embedding
           meta (process_image imgEnv (imgEnv.resolve "a")).text_content, 1)) ∧
    ingest_file shortTxtEnv emptyStore "a" = (emptyStore, 0) ∧
    ((ingest_file txtEnv emptyStore "a").2 = 1 ∧
      ∃ meta, ingest_file txtEnv emptyStore "a" =
        (upsert_document emptyStore (txtEnv.resolve "a")
           (process_document txtEnv (txtEnv.resolve "a")).embedding
           meta (process_document txtEnv (txtEnv.resolve "a")).text_content, 1)) :=
  embedding_failure_atomicity emptyStore "a" imgFailEnv imgEnv shortTxtEnv txtEnv
    rfl (by decide) rfl
    rfl (by decide) (by decide)
    rfl (by decide) (by decide)
    rfl (by decide) (by decide)

/-- Claim C9, counterexample.  For seconds `1/7` the conversion returns the value
rounded to 6 decimal places (`0.00004`), not the exact
`d + m/60 + s/3600 = 1/25200 ≈ 0.0000396825`. -/
theorem gps_exact_formula_cex :
    convert_gps_to_decimal 0 1 0 1 1 7 Option.none ≠
      Option.some ((0 : ℚ)/(1 : ℚ) + ((0 : ℚ)/(1 : ℚ))/60 + (((1 : ℚ)/(7 : ℚ)))/3600) := by
  have h : convert_gps_to_decimal 0 1 0 1 1 7 Option.none = Option.some (1/25000) := by
    norm_num [convert_gps_to_decimal, pyRound, roundHalfEven, Int.even_iff]
  rw [h]
  norm_num

/-- Claim C9, amended.  For non-zero denominators the conversion returns
`round(d + m/60 + s/3600, 6)`, negated exactly when the hemisphere reference
is `S` or `W`; in particular `N 37°48'0"` yields `37.8` and `W 122°24'0"`
yields `-122.4`. -/
theorem gps_conversion_amended (dn dd mn md sn sd : ℤ) (gps_ref : Option String)
    (hdd : dd ≠ 0) (hmd : md ≠ 0) (hsd : sd ≠ 0) :
    convert_gps_to_decimal dn dd mn md sn sd gps_ref =
      Option.some (pyRound
        ((if gps_ref = Option.some "S" ∨ gps_ref = Option.some "W"
            then (-1 : ℚ) else 1) *
          ((dn : ℚ)/(dd : ℚ) + ((mn : ℚ)/(md : ℚ))/60 + ((sn : ℚ)/(sd : ℚ))/3600)) 6) ∧
    convert_gps_to_decimal 37 1 48 1 0 1 (Option.some "N") = Option.some (189/5) ∧
    convert_gps_to_decimal 122 1 24 1 0 1 (Option.some "W") = Option.some (-(612/5)) := by
  refine ⟨?_, ?_, ?_⟩
  · unfold convert_gps_to_decimal
    rw [if_neg (by tauto)]
    cases gps_ref with
    | none => simp
    | some r =>
        by_cases hr : r = "S" ∨ r = "W"
        · simp only [hr, if_true, Option.some.injEq, or_true, true_or]
          rw [neg_one_mul]
        · have hne : ¬ (Option.some r = Option.some "S" ∨ Option.some r = Option.some "W") := by
            simpa using hr
          simp [hr, hne]
  · unfold convert_gps_to_decimal
    norm_num
    rw [if_neg (show ¬ ((("N" : String)) = "S" ∨ (("N" : String)) = "W") from by decide)]
    norm_num [pyRound, roundHalfEven, Int.even_iff]
  · unfold convert_gps_to_decimal
    norm_num
    norm_num [pyRound, roundHalfEven, Int.even_iff]

/-- Claim C9 witness: the amended conversion theorem instantiated at
`N 37° 48' 0"`. -/
theorem gps_conversion_amended_witness :
    convert_gps_to_decimal 37 1 48 1 0 1 (Option.some "N") =
      Option.some (pyRound
        ((if (Option.some "N" : Option String) = Option.some "S" ∨
              (Option.some "N" : Option String) = Option.some "W"
            then (-1 : ℚ) else 1) *
          ((37 : ℚ)/(1 : ℚ) + ((48 : ℚ)/(1 : ℚ))/60 + ((0 : ℚ)/(1 : ℚ))/3600)) 6) ∧
    convert_gps_to_decimal 37 1 48 1 0 1 (Option.some "N") = Option.some (189/5) ∧
    convert_gps_to_decimal 122 1 24 1 0 1 (Option.some "W") = Option.some (-(612/5)) :=
  gps_conversion_amended 37 1 48 1 0 1 (Option.some "N")
    (by decide) (by decide) (by decide)

/-- Claim C10: a supported document whose extracted text strips to fewer than 10
characters yields an empty embedding and empty `text_content` from
`process_document`, and `ingest_file` consequently performs no upsert and
leaves the store unchanged. -/
theorem short_document_unindexed (env : IngestEnv) (st : Store) (p : String)
    (hni : is_file_indexed st (env.resolve p) = false)
    (hext : env.extOf (env.resolve p) ∈ DOCUMENT_EXTENSIONS)
    (hshort : pyLen (pyStrip (env.extractText (env.resolve p))) < 10) :
    process_document env (env.resolve p) = ⟨[], ""⟩ ∧
    ingest_file env st p = (st, 0) := by
  have hdoc : process_document env (env.resolve p) = ⟨[], ""⟩ := by
    have hd := doc_ext_dispatch hext
    simp [process_document, hd, hshort]
  refine ⟨hdoc, ?_⟩
  simp [ingest_file, hni, not_image_of_document hext, hext, hdoc]

/-- Claim C10 witness: the short-text theorem instantiated with a `.txt`
environment whose extracted text is `"tiny"`. -/
theorem short_document_unindexed_witness :
    process_document shortTxtEnv (shortTxtEnv.resolve "a") = ⟨[], ""⟩ ∧
    ingest_file shortTxtEnv emptyStore "a" = (emptyStore, 0) :=
  short_document_unindexed shortTxtEnv emptyStore "a" rfl (by decide) (by decide)

end LifeVault
